import Mathlib

/-
  Shallow embedding of the whiteboard canvas state engine.

  Sources embedded:
  - the zustand store (src/src/store/useCanvasStore.ts and its variant
    src/unnamed/part_004, which adds point decimation and backup keys to
    the persistence functions; the two files agree on every store
    operation used here);
  - the interactive viewport handlers of src/src/components/Canvas/Board.tsx
    (handlePointerMove's panning branch, handleWheel, handleTouchMove's
    pinch branch);
  - the status-bar zoom buttons of src/unnamed/part_003.

  Numbers are modelled as rationals (exact arithmetic; the source uses JS
  floats), element ids as strings, and `historyIndex` as an integer since
  the source initializes it to -1.
-/

namespace Whiteboard

structure Position where
  x : ℚ
  y : ℚ
  deriving DecidableEq

/- The source's `Point` type is structurally identical to `Position`. -/
abbrev Point := Position

structure Size where
  width : ℚ
  height : ℚ
  deriving DecidableEq

structure Transform where
  rotation : ℚ
  scaleX : ℚ
  scaleY : ℚ
  deriving DecidableEq

inductive ElementKind where
  | sticky
  | text
  | rectangle
  | ellipse
  | image
  | drawing
  deriving DecidableEq

inductive Tool where
  | select
  | sticky
  | text
  | rectangle
  | ellipse
  | image
  | drawing
  | eraser
  | hand
  deriving DecidableEq

/-
  The source's Element is a dynamic tagged union of six kinds over a shared
  base record. We embed it as one record carrying every field, with neutral
  defaults for the fields a given kind does not use: JS spread-merge
  (`{...element, ...changes}`) then becomes ordinary record update.
-/
structure Element where
  id : String
  type : ElementKind
  position : Position
  size : Size
  transform : Transform
  zIndex : Nat
  text : String := ""
  color : String := ""
  fill : String := ""
  stroke : String := ""
  strokeWidth : ℚ := 0
  fontSize : ℚ := 0
  fontFamily : String := ""
  fontStyle : String := ""
  src : String := ""
  points : List ℚ := []
  deriving DecidableEq

structure CanvasState where
  elements : List Element
  selectedIds : List String
  tool : Tool
  zoomLevel : ℚ
  gridVisible : Bool
  history : List (List Element)
  historyIndex : Int
  drawingColor : String
  strokeWidth : ℚ
  viewportPosition : Position
  deriving DecidableEq

def stickyColors : List String :=
  ["#FFFA8D", "#FFC582", "#FF9B93", "#B5DCFF", "#9DFFB3"]

def shapeColors : List String :=
  ["#FFFFFF", "#F5F5F5", "#E9ECEF", "#DEE2E6", "#CED4DA"]

def strokeColors : List String :=
  ["#212529", "#495057", "#6C757D", "#ADB5BD"]

def textColor : String := "#000000"

def initialState : CanvasState where
  elements := []
  selectedIds := []
  tool := Tool.select
  zoomLevel := 1
  gridVisible := true
  history := []
  historyIndex := -1
  drawingColor := "#212529"
  strokeWidth := 2
  viewportPosition := ⟨0, 0⟩

/-
  JS `array.slice(0, e)`: a non-negative end index takes a prefix, a
  negative end index counts from the end, both clamped into range.
-/
def jsSlice {α : Type} (l : List α) (e : Int) : List α :=
  l.take (if e < 0 then ((l.length : Int) + e).toNat else e.toNat)

/-
  JS `history[i] || []`: an out-of-range index yields `undefined`, replaced
  by `[]`; an in-range entry (arrays are truthy, even empty ones) is kept.
-/
def historyGet (h : List (List Element)) (i : Int) : List Element :=
  if hle : 0 ≤ i ∧ i.toNat < h.length then h.get ⟨i.toNat, hle.2⟩ else []

/-
  `saveToHistory`: deep-clone `elements` (a pure value copy in this
  embedding), truncate `history` to `history.slice(0, historyIndex + 1)`,
  append the clone, increment the cursor.
-/
def saveToHistory (s : CanvasState) : CanvasState :=
  { s with
    history := jsSlice s.history (s.historyIndex + 1) ++ [s.elements]
    historyIndex := s.historyIndex + 1 }

def undo (s : CanvasState) : CanvasState :=
  if s.historyIndex ≤ 0 then s
  else
    { s with
      elements := historyGet s.history (s.historyIndex - 1)
      historyIndex := s.historyIndex - 1
      selectedIds := [] }

def redo (s : CanvasState) : CanvasState :=
  if s.historyIndex ≥ (s.history.length : Int) - 1 then s
  else
    { s with
      elements := historyGet s.history (s.historyIndex + 1)
      historyIndex := s.historyIndex + 1
      selectedIds := [] }

/-
  `updateElement(id, changes)`: `changes` is a `Partial<Element>`; its
  spread-merge `{...element, ...changes}` is embedded as the field-override
  function it induces on the full record. No history commit.
-/
def updateElement (id : String) (changes : Element → Element)
    (s : CanvasState) : CanvasState :=
  { s with
    elements := s.elements.map fun element =>
      if element.id = id then changes element else element }

/-
  `duplicateElement(id)`: the fresh nanoid is passed in as `newId`. The
  clone keeps every field of the source element (including `zIndex`) except
  `id` and the +20/+20 position offset.
-/
def duplicateElement (newId : String) (id : String)
    (s : CanvasState) : CanvasState :=
  match s.elements.find? (fun el => el.id == id) with
  | none => s
  | some element =>
      let duplicated :=
        { element with
          id := newId
          position := ⟨element.position.x + 20, element.position.y + 20⟩ }
      saveToHistory { s with elements := s.elements ++ [duplicated] }

def removeElement (id : String) (s : CanvasState) : CanvasState :=
  saveToHistory
    { s with
      elements := s.elements.filter fun element => element.id != id
      selectedIds := s.selectedIds.filter fun selectedId => selectedId != id }

def clearSelection (s : CanvasState) : CanvasState :=
  { s with selectedIds := [] }

/-
  `selectElement(id, multi)`: `if (!id)` clears, which fires both for
  `null` and for the empty string (falsy in JS).
-/
def selectElement (id : Option String) (multi : Bool)
    (s : CanvasState) : CanvasState :=
  match id with
  | none => clearSelection s
  | some i =>
      if i = "" then clearSelection s
      else if multi then
        if s.selectedIds.contains i then
          { s with selectedIds := s.selectedIds.filter fun sid => sid != i }
        else
          { s with selectedIds := s.selectedIds ++ [i] }
      else
        { s with selectedIds := [i] }

def setTool (tool : Tool) (s : CanvasState) : CanvasState :=
  { s with tool := tool }

/- `setZoomLevel(level)`: a raw setter, no clamping in the store. -/
def setZoomLevel (level : ℚ) (s : CanvasState) : CanvasState :=
  { s with zoomLevel := level }

def setDrawingColor (color : String) (s : CanvasState) : CanvasState :=
  { s with drawingColor := color }

def setStrokeWidth (width : ℚ) (s : CanvasState) : CanvasState :=
  { s with strokeWidth := width }

def addPointToDrawing (id : String) (point : Point)
    (s : CanvasState) : CanvasState :=
  { s with
    elements := s.elements.map fun element =>
      if element.id = id ∧ element.type = ElementKind.drawing then
        { element with points := element.points ++ [point.x, point.y] }
      else element }

def moveViewport (delta : Position) (s : CanvasState) : CanvasState :=
  { s with
    viewportPosition :=
      ⟨s.viewportPosition.x + delta.x, s.viewportPosition.y + delta.y⟩ }

def setViewportPosition (position : Position)
    (s : CanvasState) : CanvasState :=
  { s with viewportPosition := position }

/-
  `addElement(element)`: `id: element.id || nanoid()` keeps a non-empty id
  and replaces an empty (falsy) one by a fresh id, passed in as
  `fallbackId`. The `{...DEFAULT_ELEMENT, ...element}` merge is the
  identity here because callers (createElement) build full records.
  Appends, then commits history.
-/
def addElement (fallbackId : String) (element : Element)
    (s : CanvasState) : CanvasState :=
  let newElement :=
    if element.id = "" then { element with id := fallbackId } else element
  saveToHistory { s with elements := s.elements ++ [newElement] }

/-
  `createElement(type, position, size?)`: the fresh nanoid is passed in as
  `newId` and the random sticky palette pick as `colorPick`. Every branch
  assigns `zIndex = elements.length`; the drawing branch seeds a one-point
  path and inherits the store's current color/width.
-/
def createElement (newId : String) (colorPick : Nat) (ty : ElementKind)
    (position : Position) (size? : Option Size)
    (s : CanvasState) : CanvasState :=
  let defaultSize := size?.getD ⟨150, 150⟩
  let element : Element :=
    match ty with
    | ElementKind.sticky =>
        { id := newId, type := ElementKind.sticky, position := position
          size := defaultSize, transform := ⟨0, 1, 1⟩
          zIndex := s.elements.length, text := "New Note"
          color := stickyColors.getD (colorPick % stickyColors.length) "" }
    | ElementKind.text =>
        { id := newId, type := ElementKind.text, position := position
          size := ⟨200, 50⟩, transform := ⟨0, 1, 1⟩
          zIndex := s.elements.length, text := "Type to write"
          fontSize := 20, fontFamily := "Arial", fontStyle := "normal"
          fill := textColor }
    | ElementKind.rectangle =>
        { id := newId, type := ElementKind.rectangle, position := position
          size := defaultSize, transform := ⟨0, 1, 1⟩
          zIndex := s.elements.length, fill := "#FFFFFF"
          stroke := "#212529", strokeWidth := 2 }
    | ElementKind.ellipse =>
        { id := newId, type := ElementKind.ellipse, position := position
          size := defaultSize, transform := ⟨0, 1, 1⟩
          zIndex := s.elements.length, fill := "#FFFFFF"
          stroke := "#212529", strokeWidth := 2 }
    | ElementKind.drawing =>
        { id := newId, type := ElementKind.drawing, position := position
          size := ⟨0, 0⟩, transform := ⟨0, 1, 1⟩
          zIndex := s.elements.length
          points := [position.x, position.y]
          stroke := s.drawingColor, strokeWidth := s.strokeWidth }
    | ElementKind.image =>
        { id := newId, type := ElementKind.image, position := position
          size := defaultSize, transform := ⟨0, 1, 1⟩
          zIndex := s.elements.length, src := "" }
  addElement newId element s

/-
  Viewport controller (Board.tsx). `MAX_PAN_DISTANCE = 10000`;
  `scaleBy = 1.05` for wheel zoom; the status bar buttons use 1.1.
  `Math.max(lo, Math.min(hi, v))` is embedded as `clampPan`/`clampScale`.
-/

def maxPanDistance : ℚ := 10000

def clampPan (v : ℚ) : ℚ := max (-maxPanDistance) (min maxPanDistance v)

def clampScale (v : ℚ) : ℚ := max (1/10) (min v 5)

/- `documentPoint = (screenPoint - viewportPosition) / zoomLevel`. -/
def docPoint (p vp : Position) (z : ℚ) : Position :=
  ⟨(p.x - vp.x) / z, (p.y - vp.y) / z⟩

/-
  handleWheel: `newScale = deltaY < 0 ? oldScale * 1.05 : oldScale / 1.05`,
  clamped into [0.1, 5]. `zoomIn` is the sign of `deltaY < 0`.
-/
def wheelNewScale (zoomIn : Bool) (z : ℚ) : ℚ :=
  clampScale (if zoomIn then z * (21/20) else z / (21/20))

/-
  handleWheel's `newPos = pointer - mousePointTo * clampedScale`, where
  `mousePointTo = (pointer - stagePos) / oldScale` and the stage position
  is the store's `viewportPosition` (bound via the Stage x/y props).
-/
def wheelRawPos (p : Position) (zoomIn : Bool) (s : CanvasState) : Position :=
  let mousePointTo := docPoint p s.viewportPosition s.zoomLevel
  let clampedScale := wheelNewScale zoomIn s.zoomLevel
  ⟨p.x - mousePointTo.x * clampedScale, p.y - mousePointTo.y * clampedScale⟩

/-
  handleWheel: set the clamped zoom level, then set the viewport position
  to `newPos` clamped per axis into [-MAX_PAN_DISTANCE, MAX_PAN_DISTANCE].
-/
def wheelZoom (p : Position) (zoomIn : Bool) (s : CanvasState) : CanvasState :=
  setViewportPosition
    ⟨clampPan (wheelRawPos p zoomIn s).x, clampPan (wheelRawPos p zoomIn s).y⟩
    (setZoomLevel (wheelNewScale zoomIn s.zoomLevel) s)

/-
  handleTouchMove's pinch branch: `newScale = clamp(oldScale * ratio)` with
  `ratio = dist / lastPinchDistance`, then the same focal-point position
  update and per-axis clamp as the wheel handler, around the pinch center.
-/
def pinchNewScale (ratio z : ℚ) : ℚ := clampScale (z * ratio)

def pinchRawPos (center : Position) (ratio : ℚ) (s : CanvasState) : Position :=
  let pointTo := docPoint center s.viewportPosition s.zoomLevel
  let newScale := pinchNewScale ratio s.zoomLevel
  ⟨center.x - pointTo.x * newScale, center.y - pointTo.y * newScale⟩

def pinchZoom (center : Position) (ratio : ℚ) (s : CanvasState) : CanvasState :=
  setViewportPosition
    ⟨clampPan (pinchRawPos center ratio s).x,
     clampPan (pinchRawPos center ratio s).y⟩
    (setZoomLevel (pinchNewScale ratio s.zoomLevel) s)

/-
  handlePointerMove's panning branch: propose `viewportPosition + delta`,
  clamp each axis, and pass to `moveViewport` the original axis delta when
  the clamp left the proposal unchanged on that axis, else 0.
-/
def panStep (delta : Position) (s : CanvasState) : CanvasState :=
  let proposedX := s.viewportPosition.x + delta.x
  let proposedY := s.viewportPosition.y + delta.y
  let clampedX := clampPan proposedX
  let clampedY := clampPan proposedY
  moveViewport
    ⟨if clampedX = proposedX then delta.x else 0,
     if clampedY = proposedY then delta.y else 0⟩ s

/- Status-bar zoom buttons (StatusBar component). -/
def zoomInButton (s : CanvasState) : CanvasState :=
  setZoomLevel (min 5 (s.zoomLevel * (11/10))) s

def zoomOutButton (s : CanvasState) : CanvasState :=
  setZoomLevel (max (1/10) (s.zoomLevel / (11/10))) s

def resetZoomButton (s : CanvasState) : CanvasState :=
  setZoomLevel 1 s

/-
  Persistence layer (part_004 variant of the store).

  The decimation loop of saveToLocalStorage,
  `for (let i = 0; i < points.length; i += 4) push(points[i])`,
  keeps the scalars at flat-array indices 0, 4, 8, ….
-/
def everyFourth : List ℚ → List ℚ
  | [] => []
  | [a] => [a]
  | [a, _] => [a]
  | [a, _, _] => [a]
  | a :: _ :: _ :: _ :: rest => a :: everyFourth rest

/-
  The per-element sanitizer of saveToLocalStorage: a drawing element whose
  flat points array holds more than 1000 numbers gets the decimated array;
  everything else is passed through. (`'points' in el` always holds for a
  drawing record in this embedding.)
-/
def sanitizeElement (el : Element) : Element :=
  if el.type = ElementKind.drawing ∧ el.points.length > 1000 then
    { el with points := everyFourth el.points }
  else el

/-
  The persisted payload: `{elements, viewportPosition, zoomLevel,
  gridVisible, lastSaved}`; the `lastSaved` wall-clock timestamp is outside
  this embedding and carries no state.
-/
structure SavedPayload where
  elements : List Element
  viewportPosition : Position
  zoomLevel : ℚ
  gridVisible : Bool
  deriving DecidableEq

def saveData (s : CanvasState) : SavedPayload where
  elements := s.elements.map sanitizeElement
  viewportPosition := s.viewportPosition
  zoomLevel := s.zoomLevel
  gridVisible := s.gridVisible

/-
  loadStateFromJson on a successfully parsed payload. The element filter
  requires `id`, `type` and `position` fields, all always present on a
  well-typed Element record, so it keeps every element of the payload;
  `zoomLevel || 1` replaces a falsy (zero) stored zoom by 1, unclamped;
  history is reseeded with a single snapshot.
-/
def loadStateFromJson (p : SavedPayload) (s : CanvasState) : CanvasState :=
  let validElements := p.elements
  { s with
    elements := validElements
    viewportPosition := p.viewportPosition
    zoomLevel := if p.zoomLevel = 0 then 1 else p.zoomLevel
    gridVisible := p.gridVisible
    history := [validElements]
    historyIndex := 0
    selectedIds := [] }

/- One save/load round trip through the persisted payload. -/
def saveLoadRoundTrip (s : CanvasState) : CanvasState :=
  loadStateFromJson (saveData s) s

/- Consecutive (x, y) pairs of a flat points array. -/
def flatPairs : List ℚ → List (ℚ × ℚ)
  | x :: y :: rest => (x, y) :: flatPairs rest
  | _ => []

/-
  States reachable from the initial state by committed mutations: each step
  replaces `elements` by the mutation's result and immediately commits a
  history snapshot, leaving no uncommitted in-place edit pending.
-/
inductive CommittedReach : CanvasState → Prop where
  | init : CommittedReach initialState
  | step (s : CanvasState) (els : List Element) :
      CommittedReach s → CommittedReach (saveToHistory { s with elements := els })

/- Undo/redo sequences: `true` runs undo, `false` runs redo. -/
def applyUndoRedoSeq : List Bool → CanvasState → CanvasState
  | [], s => s
  | b :: rest, s => applyUndoRedoSeq rest (if b then undo s else redo s)

/- Selection-validity invariant: every selected id names a live element. -/
def selectionValid (s : CanvasState) : Prop :=
  ∀ sid ∈ s.selectedIds, ∃ el ∈ s.elements, el.id = sid

instance (s : CanvasState) : Decidable (selectionValid s) := by
  unfold selectionValid; infer_instance

/- A concrete element used by witness states. -/
def probeElement : Element where
  id := "p1"
  type := ElementKind.rectangle
  position := ⟨0, 0⟩
  size := ⟨10, 10⟩
  transform := ⟨0, 1, 1⟩
  zIndex := 0

/- Two committed mutations from the initial state. -/
def c2WitnessState : CanvasState :=
  saveToHistory
    { (saveToHistory { initialState with elements := [probeElement] }) with
      elements := ([] : List Element) }

/- A state with a two-entry history and its cursor at entry 0. -/
def c3WitnessState : CanvasState :=
  { initialState with
    elements := [probeElement]
    history := [[], [probeElement]]
    historyIndex := 0 }

/- A state holding one element which is selected. -/
def selWitnessState : CanvasState :=
  { initialState with
    elements := [probeElement]
    selectedIds := ["p1"] }

/- Two created rectangles, then a duplicate of the first one. -/
def dupWitnessState : CanvasState :=
  duplicateElement "e3" "e1"
    (createElement "e2" 0 ElementKind.rectangle ⟨5, 5⟩ none
      (createElement "e1" 0 ElementKind.rectangle ⟨0, 0⟩ none initialState))

/- A state panned to the pan boundary corner. -/
def cornerState : CanvasState :=
  { initialState with viewportPosition := ⟨10000, 10000⟩ }

/-
  A flat points array of 1004 numbers, [0, 1, 2, ..., 1003]: 502 points,
  where point k is (2k, 2k+1).
-/
def pts1004 : List ℚ := (List.range 1004).map (fun n => (n : ℚ))

/- A drawing element whose path exceeds the 1000-number decimation bound. -/
def drawing1004 : Element where
  id := "d1"
  type := ElementKind.drawing
  position := ⟨0, 0⟩
  size := ⟨0, 0⟩
  transform := ⟨0, 1, 1⟩
  zIndex := 0
  stroke := "#212529"
  strokeWidth := 2
  points := pts1004

/-! Helper lemmas. -/

lemma focal_component (px vx z ns : ℚ) (hns : ns ≠ 0) :
    (px - (px - (px - vx) / z * ns)) / ns = (px - vx) / z := by
  field_simp
  rw [mul_div_mul_right _ _ hns]

lemma jsSlice_of_nonneg {α : Type} (l : List α) (e : Int) (h : 0 ≤ e) :
    jsSlice l e = l.take e.toNat := by
  unfold jsSlice; rw [if_neg (by omega)]

lemma jsSlice_length (l : List (List Element)) (k : Int)
    (hk : k = (l.length : Int)) : jsSlice l k = l := by
  rw [jsSlice_of_nonneg l k (by omega)]
  have h : k.toNat = l.length := by omega
  rw [h, List.take_length]

lemma historyGet_concat (h : List (List Element)) (els : List Element) :
    historyGet (h ++ [els]) (h.length : Int) = els := by
  unfold historyGet
  rw [dif_pos]
  · have hn : ((h.length : Int)).toNat = h.length := by omega
    simp [hn]
  · constructor
    · omega
    · simp

lemma committedReach_inv {s : CanvasState} (h : CommittedReach s) :
    s.historyIndex = (s.history.length : Int) - 1 ∧
    s.elements = historyGet s.history s.historyIndex := by
  induction h with
  | init => exact ⟨rfl, rfl⟩
  | step s els hs ih =>
      obtain ⟨ih1, _⟩ := ih
      have hsl : jsSlice s.history (s.historyIndex + 1) = s.history :=
        jsSlice_length s.history (s.historyIndex + 1) (by omega)
      constructor
      · show s.historyIndex + 1 =
          ((jsSlice s.history (s.historyIndex + 1) ++ [els]).length : Int) - 1
        rw [hsl]; simp; omega
      · show els =
          historyGet (jsSlice s.history (s.historyIndex + 1) ++ [els])
            (s.historyIndex + 1)
        rw [hsl]
        have hk : s.historyIndex + 1 = (s.history.length : Int) := by omega
        rw [hk, historyGet_concat]

lemma map_ite_id (p : Element → Prop) [DecidablePred p]
    (f : Element → Element) (l : List Element) (h : ∀ el ∈ l, ¬ p el) :
    (l.map fun el => if p el then f el else el) = l := by
  induction l with
  | nil => rfl
  | cons a rest ih =>
      simp only [List.map_cons]
      rw [if_neg (h a (List.mem_cons_self a rest)),
        ih fun el hel => h el (List.mem_cons_of_mem a hel)]

lemma clampPan_eq_self (v : ℚ) : clampPan v = v ↔ |v| ≤ maxPanDistance := by
  unfold clampPan
  rw [abs_le]
  constructor
  · intro h
    constructor
    · rw [← h]; exact le_max_left _ _
    · rw [← h]
      exact max_le (by unfold maxPanDistance; norm_num) (min_le_left _ _)
  · intro ⟨h1, h2⟩
    rw [min_eq_right h2, max_eq_right h1]

lemma abs_clampPan_le (v : ℚ) : |clampPan v| ≤ maxPanDistance := by
  unfold clampPan
  rw [abs_le]
  constructor
  · exact le_max_left _ _
  · exact max_le (by unfold maxPanDistance; norm_num) (min_le_left _ _)

lemma clampScale_bounds (v : ℚ) : 1/10 ≤ clampScale v ∧ clampScale v ≤ 5 := by
  unfold clampScale
  constructor
  · exact le_max_left _ _
  · exact max_le (by norm_num) (min_le_right _ _)

lemma clampScale_pos (v : ℚ) : 0 < clampScale v :=
  lt_of_lt_of_le (by norm_num) (clampScale_bounds v).1

/-! Claim theorems. -/

/--
C10: `undo()` and `redo()` modify only `elements`, `historyIndex`, and
`selectedIds`; every other field — in particular the `history` sequence —
is left unchanged, and any sequence of consecutive undo/redo calls leaves
`history` unchanged, so a redo branch survives until the next commit.
-/
theorem c10_undo_redo_frame (s : CanvasState) :
    ((undo s).history = s.history ∧ (undo s).tool = s.tool ∧
     (undo s).zoomLevel = s.zoomLevel ∧ (undo s).gridVisible = s.gridVisible ∧
     (undo s).drawingColor = s.drawingColor ∧
     (undo s).strokeWidth = s.strokeWidth ∧
     (undo s).viewportPosition = s.viewportPosition) ∧
    ((redo s).history = s.history ∧ (redo s).tool = s.tool ∧
     (redo s).zoomLevel = s.zoomLevel ∧ (redo s).gridVisible = s.gridVisible ∧
     (redo s).drawingColor = s.drawingColor ∧
     (redo s).strokeWidth = s.strokeWidth ∧
     (redo s).viewportPosition = s.viewportPosition) ∧
    ∀ ops : List Bool, (applyUndoRedoSeq ops s).history = s.history := by
  have hu : ∀ t : CanvasState, (undo t).history = t.history := by
    intro t; unfold undo; split <;> rfl
  have hr : ∀ t : CanvasState, (redo t).history = t.history := by
    intro t; unfold redo; split <;> rfl
  refine ⟨?_, ?_, ?_⟩
  · unfold undo; split <;> exact ⟨rfl, rfl, rfl, rfl, rfl, rfl, rfl⟩
  · unfold redo; split <;> exact ⟨rfl, rfl, rfl, rfl, rfl, rfl, rfl⟩
  · intro ops
    induction ops generalizing s with
    | nil => rfl
    | cons b rest ih =>
        have hstep : applyUndoRedoSeq (b :: rest) s =
            applyUndoRedoSeq rest (if b then undo s else redo s) := rfl
        rw [hstep, ih]
        cases b
        · exact hr s
        · exact hu s

/--
C3: a commit (`saveToHistory`) at `historyIndex = k` (with the state
invariant `-1 ≤ k < history.length`) truncates history to entries `0..k`,
appends a copy of the current `elements` as the last entry, sets
`historyIndex` to the new `history.length - 1`, and preserves entries
`0..k` unchanged.
-/
theorem c3_commit_truncates (s : CanvasState)
    (h1 : -1 ≤ s.historyIndex)
    (h2 : s.historyIndex < (s.history.length : Int)) :
    (saveToHistory s).history =
      s.history.take (s.historyIndex + 1).toNat ++ [s.elements] ∧
    (saveToHistory s).historyIndex =
      ((saveToHistory s).history.length : Int) - 1 ∧
    (saveToHistory s).history.getLast? = some s.elements ∧
    ∀ i : Nat, (i : Int) ≤ s.historyIndex →
      (saveToHistory s).history[i]? = s.history[i]? := by
  have hsl : jsSlice s.history (s.historyIndex + 1) =
      s.history.take (s.historyIndex + 1).toNat :=
    jsSlice_of_nonneg s.history (s.historyIndex + 1) (by omega)
  have htake : (s.history.take (s.historyIndex + 1).toNat).length =
      (s.historyIndex + 1).toNat := by
    rw [List.length_take]; omega
  refine ⟨?_, ?_, ?_, ?_⟩
  · show jsSlice s.history (s.historyIndex + 1) ++ [s.elements] = _
    rw [hsl]
  · show s.historyIndex + 1 =
      ((jsSlice s.history (s.historyIndex + 1) ++ [s.elements]).length : Int) - 1
    rw [hsl]
    simp only [List.length_append, List.length_cons, List.length_nil]
    omega
  · show (jsSlice s.history (s.historyIndex + 1) ++ [s.elements]).getLast? = _
    rw [hsl]
    exact List.getLast?_concat _
  · intro i hi
    show (jsSlice s.history (s.historyIndex + 1) ++ [s.elements])[i]? = _
    rw [hsl]
    have hilt : i < (s.history.take (s.historyIndex + 1).toNat).length := by
      rw [htake]; omega
    rw [List.getElem?_append_left hilt,
      List.getElem?_take_of_lt (by omega : i < (s.historyIndex + 1).toNat)]

/-- Witness for C3 at a concrete two-entry history. -/
theorem c3_commit_truncates_witness :
    (-1 ≤ c3WitnessState.historyIndex) ∧
    (c3WitnessState.historyIndex < (c3WitnessState.history.length : Int)) ∧
    ((saveToHistory c3WitnessState).history =
      c3WitnessState.history.take (c3WitnessState.historyIndex + 1).toNat ++
        [c3WitnessState.elements] ∧
     (saveToHistory c3WitnessState).historyIndex =
      ((saveToHistory c3WitnessState).history.length : Int) - 1 ∧
     (saveToHistory c3WitnessState).history.getLast? =
      some c3WitnessState.elements ∧
     ∀ i : Nat, (i : Int) ≤ c3WitnessState.historyIndex →
      (saveToHistory c3WitnessState).history[i]? =
        c3WitnessState.history[i]?) :=
  ⟨by decide, by decide,
    c3_commit_truncates c3WitnessState (by decide) (by decide)⟩

/--
C2: in every state reached by a sequence of committed mutations (each
mutation immediately followed by a commit), `undo()` then `redo()` restores
the pre-undo `elements` exactly.
-/
theorem c2_undo_redo_round_trip (s : CanvasState) (h : CommittedReach s) :
    (redo (undo s)).elements = s.elements := by
  obtain ⟨h1, h2⟩ := committedReach_inv h
  by_cases hle : s.historyIndex ≤ 0
  · have hundo : undo s = s := by unfold undo; rw [if_pos hle]
    have hredo : redo s = s := by
      unfold redo; rw [if_pos (by omega)]
    rw [hundo, hredo]
  · have hundo : undo s =
        { s with
          elements := historyGet s.history (s.historyIndex - 1)
          historyIndex := s.historyIndex - 1
          selectedIds := [] } := by
      unfold undo; rw [if_neg hle]
    rw [hundo]
    unfold redo
    rw [if_neg (by simp; omega)]
    simp only
    have hidx : s.historyIndex - 1 + 1 = s.historyIndex := by omega
    rw [hidx, ← h2]

/-- Witness for C2: two committed mutations, then undo/redo. -/
theorem c2_undo_redo_round_trip_witness :
    (redo (undo c2WitnessState)).elements = c2WitnessState.elements :=
  c2_undo_redo_round_trip c2WitnessState
    (CommittedReach.step _ [] (CommittedReach.step _ [probeElement]
      CommittedReach.init))

set_option maxRecDepth 10000 in
/--
C1: the code is wrong on the failing input `drawing1004` (a drawing whose
flat points array is [0, 1, ..., 1003], i.e. 502 points (2k, 2k+1)). The
save-path sanitizer does persist every 4th value, [0, 4, 8, ...], of
length ⌈1004/4⌉ = 251 in original order — but that array does not encode
the original polyline at 4× coarser resolution: it has odd length (not a
valid flat (x,y) array at all), and its first consecutive pair (0, 4)
pairs two x-coordinates and is not a point of the original path, contrary
to the code's own stated intent of simplifying the path while preserving
its shape (and to the spec's §8 "still renders as a valid (if coarser)
polyline").
-/
theorem c1_decimation_breaks_polyline :
    (sanitizeElement drawing1004).points.length = 251 ∧
    (sanitizeElement drawing1004).points.take 4 = [0, 4, 8, 12] ∧
    (sanitizeElement drawing1004).points = everyFourth pts1004 ∧
    251 % 2 = 1 ∧
    ((0 : ℚ), (4 : ℚ)) ∉ flatPairs pts1004 ∧
    ((0 : ℚ), (4 : ℚ)) ∈ flatPairs (sanitizeElement drawing1004).points := by
  decide

/--
C7 fails as stated: `removeElement` on an id absent from `elements` is not
a complete no-op on the CanvasState — it still commits a history snapshot.
At the initial state (no elements), `removeElement "a"` changes the state:
`history` gains an entry and `historyIndex` moves from -1 to 0.
-/
theorem c7_counterexample :
    (∀ el ∈ initialState.elements, el.id ≠ "a") ∧
    removeElement "a" initialState ≠ initialState ∧
    (removeElement "a" initialState).historyIndex = 0 ∧
    initialState.historyIndex = -1 ∧
    (removeElement "a" initialState).history = [[]] ∧
    initialState.history = [] := by decide

/--
C7 amended: for an id absent from `elements`, `updateElement`,
`duplicateElement` and `addPointToDrawing` leave the entire state
unchanged (and none of the four operations can raise); `removeElement`
leaves `elements` unchanged and merely filters `selectedIds`, but still
appends a history snapshot and increments `historyIndex`.
-/
theorem c7_missing_id_ops (s : CanvasState) (id newId : String)
    (f : Element → Element) (pt : Point)
    (h : ∀ el ∈ s.elements, el.id ≠ id) :
    updateElement id f s = s ∧
    duplicateElement newId id s = s ∧
    addPointToDrawing id pt s = s ∧
    (removeElement id s).elements = s.elements ∧
    (removeElement id s).selectedIds =
      s.selectedIds.filter (fun sid => sid != id) ∧
    (removeElement id s).history =
      jsSlice s.history (s.historyIndex + 1) ++ [s.elements] ∧
    (removeElement id s).historyIndex = s.historyIndex + 1 := by
  have hfilter : (s.elements.filter fun element => element.id != id) =
      s.elements :=
    List.filter_eq_self.mpr fun el hel => by
      simpa [bne_iff_ne] using h el hel
  refine ⟨?_, ?_, ?_, ?_, rfl, ?_, rfl⟩
  · unfold updateElement
    rw [map_ite_id (fun element => element.id = id) f s.elements h]
  · unfold duplicateElement
    rw [List.find?_eq_none.mpr fun el hel => by simpa using h el hel]
  · unfold addPointToDrawing
    rw [map_ite_id
      (fun element => element.id = id ∧ element.type = ElementKind.drawing)
      _ s.elements fun el hel hc => h el hel hc.1]
  · show s.elements.filter _ = s.elements
    exact hfilter
  · show jsSlice s.history (s.historyIndex + 1) ++
      [s.elements.filter fun element => element.id != id] = _
    rw [hfilter]

/-- Witness for C7 at a state holding one element with a different id. -/
theorem c7_missing_id_ops_witness :
    (∀ el ∈ selWitnessState.elements, el.id ≠ "zz") ∧
    (updateElement "zz" (fun el => { el with text := "x" })
        selWitnessState = selWitnessState ∧
     duplicateElement "n9" "zz" selWitnessState = selWitnessState ∧
     addPointToDrawing "zz" ⟨1, 2⟩ selWitnessState = selWitnessState ∧
     (removeElement "zz" selWitnessState).elements =
       selWitnessState.elements ∧
     (removeElement "zz" selWitnessState).selectedIds =
       selWitnessState.selectedIds.filter (fun sid => sid != "zz") ∧
     (removeElement "zz" selWitnessState).history =
       jsSlice selWitnessState.history (selWitnessState.historyIndex + 1) ++
         [selWitnessState.elements] ∧
     (removeElement "zz" selWitnessState).historyIndex =
       selWitnessState.historyIndex + 1) :=
  ⟨by decide,
    c7_missing_id_ops selWitnessState "zz" "n9"
      (fun el => { el with text := "x" }) ⟨1, 2⟩ (by decide)⟩

/--
C8 fails as stated: `selectElement` performs no existence check, so it can
introduce an id into `selectedIds` that matches no element. At the initial
state (no elements), `selectElement "ghost"` yields `selectedIds =
["ghost"]`, violating the selection-validity invariant.
-/
theorem c8_counterexample :
    ¬ selectionValid (selectElement (some "ghost") false initialState) ∧
    (selectElement (some "ghost") false initialState).selectedIds =
      ["ghost"] ∧
    (selectElement (some "ghost") false initialState).elements = [] := by
  decide

/--
C8 amended: `removeElement(id)` prunes `id` from `selectedIds` and
preserves the selection-validity invariant; but `selectElement` does not
validate its id against `elements`, so the invariant is not preserved by
every operation.
-/
theorem c8_remove_prunes (s : CanvasState) (id : String)
    (h : selectionValid s) :
    selectionValid (removeElement id s) ∧
    id ∉ (removeElement id s).selectedIds := by
  have hsel : (removeElement id s).selectedIds =
      s.selectedIds.filter (fun sid => sid != id) := rfl
  have hels : (removeElement id s).elements =
      s.elements.filter (fun el => el.id != id) := rfl
  constructor
  · intro sid hsid
    rw [hsel, List.mem_filter] at hsid
    obtain ⟨hmem, hne⟩ := hsid
    obtain ⟨el, hel, heq⟩ := h sid hmem
    refine ⟨el, ?_, heq⟩
    rw [hels, List.mem_filter]
    refine ⟨hel, ?_⟩
    rw [heq]
    exact hne
  · rw [hsel]
    intro hmem
    rw [List.mem_filter] at hmem
    simp at hmem

/-- Witness for C8: removing the selected element prunes the selection. -/
theorem c8_remove_prunes_witness :
    selectionValid selWitnessState ∧
    (selectionValid (removeElement "p1" selWitnessState) ∧
     "p1" ∉ (removeElement "p1" selWitnessState).selectedIds) :=
  ⟨by decide, c8_remove_prunes selWitnessState "p1" (by decide)⟩

/--
C9 fails as stated: `duplicateElement` copies the source element's
`zIndex` instead of assigning `elements.length`. Creating two rectangles
and duplicating the first yields zIndexes [0, 1, 0]: the appended clone
has zIndex 0, not its array position 2, so zIndex order no longer matches
painter's (array) order.
-/
theorem c9_counterexample :
    dupWitnessState.elements.map Element.zIndex = [0, 1, 0] ∧
    dupWitnessState.elements.length = 3 ∧
    dupWitnessState.elements.map Element.zIndex ≠ List.range 3 := by decide

/--
C9 amended: `createElement` assigns the appended element `zIndex =
elements.length` at the moment of creation; `duplicateElement` appends a
clone that keeps the source element's `zIndex` unchanged, so after a
duplication an element's zIndex need not equal its array position.
-/
theorem c9_zindex_assignment (s : CanvasState)
    (newId cloneId dupId : String) (colorPick : Nat) (ty : ElementKind)
    (pos : Position) (sz : Option Size) (el : Element)
    (hfind : s.elements.find? (fun e => e.id == dupId) = some el) :
    (createElement newId colorPick ty pos sz s).elements.map Element.zIndex =
      s.elements.map Element.zIndex ++ [s.elements.length] ∧
    (duplicateElement cloneId dupId s).elements.map Element.zIndex =
      s.elements.map Element.zIndex ++ [el.zIndex] := by
  constructor
  · cases ty <;>
      (unfold createElement addElement saveToHistory
       split <;> simp)
  · unfold duplicateElement
    rw [hfind]
    simp [saveToHistory]

/--
C4 fails as stated: when the recomputed viewport position is clamped by
the ±10000 pan bound, the focal document point is not preserved. Wheel
zooming in at screen point (0,0) from the boundary corner state moves the
document point under the pointer from (-10000, -10000) to
(-200000/21, -200000/21), a shift of 10000/21 > 476 document units —
far beyond any floating-point tolerance.
-/
theorem c4_counterexample :
    (docPoint ⟨0, 0⟩ (wheelZoom ⟨0, 0⟩ true cornerState).viewportPosition
        (wheelZoom ⟨0, 0⟩ true cornerState).zoomLevel).x ≠
      (docPoint ⟨0, 0⟩ cornerState.viewportPosition
        cornerState.zoomLevel).x ∧
    (docPoint ⟨0, 0⟩ (wheelZoom ⟨0, 0⟩ true cornerState).viewportPosition
        (wheelZoom ⟨0, 0⟩ true cornerState).zoomLevel).x -
      (docPoint ⟨0, 0⟩ cornerState.viewportPosition
        cornerState.zoomLevel).x > 476 := by
  constructor <;>
    norm_num [docPoint, wheelZoom, wheelRawPos, wheelNewScale, clampScale,
      clampPan, setViewportPosition, setZoomLevel, cornerState, initialState,
      maxPanDistance, min_def, max_def]

/--
C4 amended: for every zoomLevel, viewportPosition and screen
point p, the document point `(p - viewportPosition)/zoomLevel` is
preserved exactly by a wheel or pinch zoom-at-point operation at p
whenever the recomputed viewport position lies within the ±10000 pan
bounds on both axes (i.e. the pan clamp does not engage); when the clamp
engages the focal point shifts.
-/
theorem c4_focal_point_preserved (p center : Position) (zoomIn : Bool)
    (ratio : ℚ) (s : CanvasState)
    (hwx : |(wheelRawPos p zoomIn s).x| ≤ maxPanDistance)
    (hwy : |(wheelRawPos p zoomIn s).y| ≤ maxPanDistance)
    (hpx : |(pinchRawPos center ratio s).x| ≤ maxPanDistance)
    (hpy : |(pinchRawPos center ratio s).y| ≤ maxPanDistance) :
    (docPoint p (wheelZoom p zoomIn s).viewportPosition
        (wheelZoom p zoomIn s).zoomLevel).x =
      (docPoint p s.viewportPosition s.zoomLevel).x ∧
    (docPoint p (wheelZoom p zoomIn s).viewportPosition
        (wheelZoom p zoomIn s).zoomLevel).y =
      (docPoint p s.viewportPosition s.zoomLevel).y ∧
    (docPoint center (pinchZoom center ratio s).viewportPosition
        (pinchZoom center ratio s).zoomLevel).x =
      (docPoint center s.viewportPosition s.zoomLevel).x ∧
    (docPoint center (pinchZoom center ratio s).viewportPosition
        (pinchZoom center ratio s).zoomLevel).y =
      (docPoint center s.viewportPosition s.zoomLevel).y := by
  have hwns : (0 : ℚ) < wheelNewScale zoomIn s.zoomLevel := clampScale_pos _
  have hpns : (0 : ℚ) < pinchNewScale ratio s.zoomLevel := clampScale_pos _
  have hw : (wheelZoom p zoomIn s).viewportPosition =
      ⟨clampPan (wheelRawPos p zoomIn s).x,
       clampPan (wheelRawPos p zoomIn s).y⟩ := rfl
  have hp : (pinchZoom center ratio s).viewportPosition =
      ⟨clampPan (pinchRawPos center ratio s).x,
       clampPan (pinchRawPos center ratio s).y⟩ := rfl
  refine ⟨?_, ?_, ?_, ?_⟩
  · show (p.x - clampPan (wheelRawPos p zoomIn s).x) /
        wheelNewScale zoomIn s.zoomLevel = _
    rw [(clampPan_eq_self _).mpr hwx]
    exact focal_component p.x s.viewportPosition.x s.zoomLevel _
      (ne_of_gt hwns)
  · show (p.y - clampPan (wheelRawPos p zoomIn s).y) /
        wheelNewScale zoomIn s.zoomLevel = _
    rw [(clampPan_eq_self _).mpr hwy]
    exact focal_component p.y s.viewportPosition.y s.zoomLevel _
      (ne_of_gt hwns)
  · show (center.x - clampPan (pinchRawPos center ratio s).x) /
        pinchNewScale ratio s.zoomLevel = _
    rw [(clampPan_eq_self _).mpr hpx]
    exact focal_component center.x s.viewportPosition.x s.zoomLevel _
      (ne_of_gt hpns)
  · show (center.y - clampPan (pinchRawPos center ratio s).y) /
        pinchNewScale ratio s.zoomLevel = _
    rw [(clampPan_eq_self _).mpr hpy]
    exact focal_component center.y s.viewportPosition.y s.zoomLevel _
      (ne_of_gt hpns)

/-- Witness for C4 at the initial state, away from the pan boundary. -/
theorem c4_focal_point_preserved_witness :
    (|(wheelRawPos ⟨100, 100⟩ true initialState).x| ≤ maxPanDistance) ∧
    (|(wheelRawPos ⟨100, 100⟩ true initialState).y| ≤ maxPanDistance) ∧
    (|(pinchRawPos ⟨100, 100⟩ 2 initialState).x| ≤ maxPanDistance) ∧
    (|(pinchRawPos ⟨100, 100⟩ 2 initialState).y| ≤ maxPanDistance) ∧
    ((docPoint ⟨100, 100⟩
        (wheelZoom ⟨100, 100⟩ true initialState).viewportPosition
        (wheelZoom ⟨100, 100⟩ true initialState).zoomLevel).x =
      (docPoint ⟨100, 100⟩ initialState.viewportPosition
        initialState.zoomLevel).x ∧
     (docPoint ⟨100, 100⟩
        (wheelZoom ⟨100, 100⟩ true initialState).viewportPosition
        (wheelZoom ⟨100, 100⟩ true initialState).zoomLevel).y =
      (docPoint ⟨100, 100⟩ initialState.viewportPosition
        initialState.zoomLevel).y ∧
     (docPoint ⟨100, 100⟩
        (pinchZoom ⟨100, 100⟩ 2 initialState).viewportPosition
        (pinchZoom ⟨100, 100⟩ 2 initialState).zoomLevel).x =
      (docPoint ⟨100, 100⟩ initialState.viewportPosition
        initialState.zoomLevel).x ∧
     (docPoint ⟨100, 100⟩
        (pinchZoom ⟨100, 100⟩ 2 initialState).viewportPosition
        (pinchZoom ⟨100, 100⟩ 2 initialState).zoomLevel).y =
      (docPoint ⟨100, 100⟩ initialState.viewportPosition
        initialState.zoomLevel).y) := by
  have hw : |(wheelRawPos ⟨100, 100⟩ true initialState).x| ≤ maxPanDistance ∧
      |(wheelRawPos ⟨100, 100⟩ true initialState).y| ≤ maxPanDistance := by
    constructor <;>
      norm_num [wheelRawPos, wheelNewScale, clampScale, docPoint,
        initialState, maxPanDistance, min_def, max_def, abs_le]
  have hp : |(pinchRawPos ⟨100, 100⟩ 2 initialState).x| ≤ maxPanDistance ∧
      |(pinchRawPos ⟨100, 100⟩ 2 initialState).y| ≤ maxPanDistance := by
    constructor <;>
      norm_num [pinchRawPos, pinchNewScale, clampScale, docPoint,
        initialState, maxPanDistance, min_def, max_def, abs_le]
  exact ⟨hw.1, hw.2, hp.1, hp.2,
    c4_focal_point_preserved ⟨100, 100⟩ ⟨100, 100⟩ true 2 initialState
      hw.1 hw.2 hp.1 hp.2⟩

/--
C5: starting from a viewport position within the ±10000 pan bounds, a pan
step applies each axis's delta exactly when the proposed position on that
axis stays within the bounds and drops that axis's delta entirely
otherwise (axes independent), leaving both components within the bounds;
wheel and pinch zoom clamp both components into the bounds directly.
-/
theorem c5_pan_zoom_bounded (s : CanvasState) (delta p center : Position)
    (zoomIn : Bool) (ratio : ℚ)
    (hx : |s.viewportPosition.x| ≤ maxPanDistance)
    (hy : |s.viewportPosition.y| ≤ maxPanDistance) :
    (panStep delta s).viewportPosition.x =
      (if |s.viewportPosition.x + delta.x| ≤ maxPanDistance
       then s.viewportPosition.x + delta.x else s.viewportPosition.x) ∧
    (panStep delta s).viewportPosition.y =
      (if |s.viewportPosition.y + delta.y| ≤ maxPanDistance
       then s.viewportPosition.y + delta.y else s.viewportPosition.y) ∧
    |(panStep delta s).viewportPosition.x| ≤ maxPanDistance ∧
    |(panStep delta s).viewportPosition.y| ≤ maxPanDistance ∧
    |(wheelZoom p zoomIn s).viewportPosition.x| ≤ maxPanDistance ∧
    |(wheelZoom p zoomIn s).viewportPosition.y| ≤ maxPanDistance ∧
    |(pinchZoom center ratio s).viewportPosition.x| ≤ maxPanDistance ∧
    |(pinchZoom center ratio s).viewportPosition.y| ≤ maxPanDistance := by
  have hresx : (panStep delta s).viewportPosition.x =
      (if |s.viewportPosition.x + delta.x| ≤ maxPanDistance
       then s.viewportPosition.x + delta.x else s.viewportPosition.x) := by
    have hrfl : (panStep delta s).viewportPosition.x =
        s.viewportPosition.x +
          (if clampPan (s.viewportPosition.x + delta.x) =
              s.viewportPosition.x + delta.x
           then delta.x else 0) := rfl
    by_cases hcx : |s.viewportPosition.x + delta.x| ≤ maxPanDistance
    · rw [hrfl, if_pos ((clampPan_eq_self _).mpr hcx), if_pos hcx]
    · rw [hrfl, if_neg (fun hcl => hcx ((clampPan_eq_self _).mp hcl)),
        if_neg hcx, add_zero]
  have hresy : (panStep delta s).viewportPosition.y =
      (if |s.viewportPosition.y + delta.y| ≤ maxPanDistance
       then s.viewportPosition.y + delta.y else s.viewportPosition.y) := by
    have hrfl : (panStep delta s).viewportPosition.y =
        s.viewportPosition.y +
          (if clampPan (s.viewportPosition.y + delta.y) =
              s.viewportPosition.y + delta.y
           then delta.y else 0) := rfl
    by_cases hcy : |s.viewportPosition.y + delta.y| ≤ maxPanDistance
    · rw [hrfl, if_pos ((clampPan_eq_self _).mpr hcy), if_pos hcy]
    · rw [hrfl, if_neg (fun hcl => hcy ((clampPan_eq_self _).mp hcl)),
        if_neg hcy, add_zero]
  refine ⟨hresx, hresy, ?_, ?_, abs_clampPan_le _, abs_clampPan_le _,
    abs_clampPan_le _, abs_clampPan_le _⟩
  · rw [hresx]
    split_ifs with h
    · exact h
    · exact hx
  · rw [hresy]
    split_ifs with h
    · exact h
    · exact hy

/-- Witness for C5 at the initial state with a small diagonal delta. -/
theorem c5_pan_zoom_bounded_witness :
    (|initialState.viewportPosition.x| ≤ maxPanDistance) ∧
    (|initialState.viewportPosition.y| ≤ maxPanDistance) ∧
    ((panStep ⟨3, 4⟩ initialState).viewportPosition.x =
      (if |initialState.viewportPosition.x + (3 : ℚ)| ≤ maxPanDistance
       then initialState.viewportPosition.x + 3
       else initialState.viewportPosition.x) ∧
     (panStep ⟨3, 4⟩ initialState).viewportPosition.y =
      (if |initialState.viewportPosition.y + (4 : ℚ)| ≤ maxPanDistance
       then initialState.viewportPosition.y + 4
       else initialState.viewportPosition.y) ∧
     |(panStep ⟨3, 4⟩ initialState).viewportPosition.x| ≤ maxPanDistance ∧
     |(panStep ⟨3, 4⟩ initialState).viewportPosition.y| ≤ maxPanDistance ∧
     |(wheelZoom ⟨1, 2⟩ false initialState).viewportPosition.x| ≤
       maxPanDistance ∧
     |(wheelZoom ⟨1, 2⟩ false initialState).viewportPosition.y| ≤
       maxPanDistance ∧
     |(pinchZoom ⟨5, 6⟩ 3 initialState).viewportPosition.x| ≤
       maxPanDistance ∧
     |(pinchZoom ⟨5, 6⟩ 3 initialState).viewportPosition.y| ≤
       maxPanDistance) := by
  have hx : |initialState.viewportPosition.x| ≤ maxPanDistance := by
    norm_num [initialState, maxPanDistance]
  have hy : |initialState.viewportPosition.y| ≤ maxPanDistance := by
    norm_num [initialState, maxPanDistance]
  exact ⟨hx, hy,
    c5_pan_zoom_bounded initialState ⟨3, 4⟩ ⟨1, 2⟩ ⟨5, 6⟩ false 3 hx hy⟩

/--
C6 fails as stated: `setZoomLevel` is a raw setter with no clamping, so
calling it with 10 from the initial state leaves `zoomLevel = 10`, outside
[0.1, 5].
-/
theorem c6_counterexample :
    (setZoomLevel 10 initialState).zoomLevel = 10 ∧
    ¬ (1/10 ≤ (setZoomLevel 10 initialState).zoomLevel ∧
       (setZoomLevel 10 initialState).zoomLevel ≤ 5) := by
  refine ⟨rfl, ?_⟩
  norm_num [setZoomLevel]

/--
C6 amended: the interactive zoom paths — wheel zoom, pinch zoom, and the
status-bar zoom buttons — clamp into [0.1, 5] before storing, so starting
from a zoomLevel in [0.1, 5] each of them leaves zoomLevel in [0.1, 5];
`setZoomLevel` itself stores its argument unclamped, and
`loadStateFromJson` applies no clamp to the stored zoom value.
-/
theorem c6_interactive_zoom_clamped (s : CanvasState) (p center : Position)
    (zoomIn : Bool) (ratio : ℚ)
    (h1 : 1/10 ≤ s.zoomLevel) (h2 : s.zoomLevel ≤ 5) :
    (1/10 ≤ (wheelZoom p zoomIn s).zoomLevel ∧
     (wheelZoom p zoomIn s).zoomLevel ≤ 5) ∧
    (1/10 ≤ (pinchZoom center ratio s).zoomLevel ∧
     (pinchZoom center ratio s).zoomLevel ≤ 5) ∧
    (1/10 ≤ (zoomInButton s).zoomLevel ∧ (zoomInButton s).zoomLevel ≤ 5) ∧
    (1/10 ≤ (zoomOutButton s).zoomLevel ∧
     (zoomOutButton s).zoomLevel ≤ 5) ∧
    (1/10 ≤ (resetZoomButton s).zoomLevel ∧
     (resetZoomButton s).zoomLevel ≤ 5) := by
  have hwheel := clampScale_bounds
    (if zoomIn then s.zoomLevel * (21/20) else s.zoomLevel / (21/20))
  have hpinch := clampScale_bounds (s.zoomLevel * ratio)
  have hdiv : s.zoomLevel / (11/10) = s.zoomLevel * (10/11) := by ring
  refine ⟨⟨?_, ?_⟩, ⟨?_, ?_⟩, ⟨?_, ?_⟩, ⟨?_, ?_⟩, ⟨?_, ?_⟩⟩
  · exact hwheel.1
  · exact hwheel.2
  · exact hpinch.1
  · exact hpinch.2
  · show 1/10 ≤ min 5 (s.zoomLevel * (11/10))
    exact le_min (by norm_num) (by linarith)
  · exact min_le_left _ _
  · exact le_max_left _ _
  · show max (1/10) (s.zoomLevel / (11/10)) ≤ 5
    rw [hdiv]
    exact max_le (by norm_num) (by linarith)
  · show (1 : ℚ)/10 ≤ 1
    norm_num
  · show (1 : ℚ) ≤ 5
    norm_num

/-- Witness for C6 at the initial zoom level 1. -/
theorem c6_interactive_zoom_clamped_witness :
    (1/10 ≤ initialState.zoomLevel) ∧ (initialState.zoomLevel ≤ 5) ∧
    ((1/10 ≤ (wheelZoom ⟨1, 2⟩ true initialState).zoomLevel ∧
      (wheelZoom ⟨1, 2⟩ true initialState).zoomLevel ≤ 5) ∧
     (1/10 ≤ (pinchZoom ⟨3, 4⟩ 7 initialState).zoomLevel ∧
      (pinchZoom ⟨3, 4⟩ 7 initialState).zoomLevel ≤ 5) ∧
     (1/10 ≤ (zoomInButton initialState).zoomLevel ∧
      (zoomInButton initialState).zoomLevel ≤ 5) ∧
     (1/10 ≤ (zoomOutButton initialState).zoomLevel ∧
      (zoomOutButton initialState).zoomLevel ≤ 5) ∧
     (1/10 ≤ (resetZoomButton initialState).zoomLevel ∧
      (resetZoomButton initialState).zoomLevel ≤ 5)) := by
  have h1 : 1/10 ≤ initialState.zoomLevel := by norm_num [initialState]
  have h2 : initialState.zoomLevel ≤ 5 := by norm_num [initialState]
  exact ⟨h1, h2,
    c6_interactive_zoom_clamped initialState ⟨1, 2⟩ ⟨3, 4⟩ true 7 h1 h2⟩

/-- Witness for C9 on a one-element state. -/
theorem c9_zindex_assignment_witness :
    (selWitnessState.elements.find? (fun e => e.id == "p1") =
      some probeElement) ∧
    ((createElement "n1" 0 ElementKind.sticky ⟨1, 1⟩ none
        selWitnessState).elements.map Element.zIndex =
      selWitnessState.elements.map Element.zIndex ++
        [selWitnessState.elements.length] ∧
     (duplicateElement "c1" "p1" selWitnessState).elements.map
        Element.zIndex =
      selWitnessState.elements.map Element.zIndex ++ [probeElement.zIndex]) :=
  ⟨by decide,
    c9_zindex_assignment selWitnessState "n1" "c1" "p1" 0
      ElementKind.sticky ⟨1, 1⟩ none probeElement (by decide)⟩

end Whiteboard
